import Mathlib

/-!
Verification of the `decanus/gecko` fragment: the test external sender
(`snow/networking/sender/test_external_sender.go`) and the genesis module
(`genesis/genesis.go`), together with a spec-modelled vote-tally state
machine for the consensus lifecycle claims.

Shallow embedding conventions:
* `ids.ShortID` and `ids.ID` are opaque identifiers, modelled as `Nat`.
* `ids.ShortSet` / `ids.Set` are modelled as lists of identifiers.
* `uint32` request identifiers are modelled as `Fin (2 ^ 32)`.
* Go byte slices are modelled as `List Nat`.
* A `*testing.T` / `*testing.B` field is modelled by a `Bool` recording
  whether the pointer is non-nil; calling `Fatalf` on it is an `Outcome`.
* A handler field (`GetAcceptedFrontierF`, ...) is caller-supplied code,
  not code of this repository; we record whether it is non-nil and, when
  it is invoked, which arguments it receives (the `Outcome.handlerCalled`
  event carries them).
-/

namespace Gecko

/-- `ids.ShortID`: a validator identifier (opaque). -/
abbrev ShortID : Type := Nat

/-- `ids.ID`: a chain / container identifier (opaque). -/
abbrev ID : Type := Nat

/-- A Go `uint32` request identifier. -/
abbrev RequestID : Type := Fin (2 ^ 32)

/-- Smart constructor for request identifiers from a small numeral. -/
def rid (n : Nat) (h : n < 2 ^ 32 := by norm_num) : RequestID := ⟨n, h⟩

/-- Go `[]byte`. -/
abbrev Bytes : Type := List Nat

/-- The nine message operations exposed by `ExternalSenderTest`
(one method per message kind, `test_external_sender.go`). -/
inductive Op where
  | GetAcceptedFrontier
  | AcceptedFrontier
  | GetAccepted
  | Accepted
  | Get
  | Put
  | PushQuery
  | PullQuery
  | Chits
  deriving DecidableEq, Fintype, Repr

/-- The Go type of the first (peer-targeting) parameter of a sender
operation: either `ids.ShortSet` (a set of peers) or `ids.ShortID`
(a single peer). -/
inductive PeerParam where
  | shortSet
  | shortID
  deriving DecidableEq, Repr

/-- First parameter type of each operation, read off the Go signatures in
`test_external_sender.go`:
`GetAcceptedFrontier(validatorIDs ids.ShortSet, ...)`,
`AcceptedFrontier(validatorID ids.ShortID, ...)`,
`GetAccepted(validatorIDs ids.ShortSet, ...)`,
`Accepted(validatorID ids.ShortID, ...)`,
`Get(vdr ids.ShortID, ...)`,
`Put(vdr ids.ShortID, ...)`,
`PushQuery(vdrs ids.ShortSet, ...)`,
`PullQuery(vdrs ids.ShortSet, ...)`,
`Chits(vdr ids.ShortID, ...)`. -/
def firstParam : Op → PeerParam
  | .GetAcceptedFrontier => .shortSet
  | .AcceptedFrontier => .shortID
  | .GetAccepted => .shortSet
  | .Accepted => .shortID
  | .Get => .shortID
  | .Put => .shortID
  | .PushQuery => .shortSet
  | .PullQuery => .shortSet
  | .Chits => .shortID

/-- The spec's request-style ("Get*"/"Query") classification of the nine
kinds (spec section 4.3). -/
def requestStyle : Op → Bool
  | .GetAcceptedFrontier => true
  | .GetAccepted => true
  | .Get => true
  | .PushQuery => true
  | .PullQuery => true
  | _ => false

/-- The spec's response-style classification: `AcceptedFrontier`,
`Accepted`, `Put`, `Chits` (spec section 4.3). -/
def responseStyle : Op → Bool
  | .AcceptedFrontier => true
  | .Accepted => true
  | .Put => true
  | .Chits => true
  | _ => false

/-- One invocation of a sender operation, carrying exactly the arguments of
the corresponding Go method of `ExternalSenderTest`. -/
inductive Message where
  | GetAcceptedFrontier (validatorIDs : List ShortID) (chainID : ID) (requestID : RequestID)
  | AcceptedFrontier (validatorID : ShortID) (chainID : ID) (requestID : RequestID)
      (containerIDs : List ID)
  | GetAccepted (validatorIDs : List ShortID) (chainID : ID) (requestID : RequestID)
      (containerIDs : List ID)
  | Accepted (validatorID : ShortID) (chainID : ID) (requestID : RequestID)
      (containerIDs : List ID)
  | Get (validatorID : ShortID) (chainID : ID) (requestID : RequestID) (containerID : ID)
  | Put (validatorID : ShortID) (chainID : ID) (requestID : RequestID) (containerID : ID)
      (container : Bytes)
  | PushQuery (validatorIDs : List ShortID) (chainID : ID) (requestID : RequestID)
      (containerID : ID) (container : Bytes)
  | PullQuery (validatorIDs : List ShortID) (chainID : ID) (requestID : RequestID)
      (containerID : ID)
  | Chits (validatorID : ShortID) (chainID : ID) (requestID : RequestID) (votes : List ID)
  deriving DecidableEq

/-- The operation a message invokes. -/
def Message.kind : Message → Op
  | .GetAcceptedFrontier .. => .GetAcceptedFrontier
  | .AcceptedFrontier .. => .AcceptedFrontier
  | .GetAccepted .. => .GetAccepted
  | .Accepted .. => .Accepted
  | .Get .. => .Get
  | .Put .. => .Put
  | .PushQuery .. => .PushQuery
  | .PullQuery .. => .PullQuery
  | .Chits .. => .Chits

/-- The `chainID ids.ID` routing argument every operation carries. -/
def Message.chainID : Message → ID
  | .GetAcceptedFrontier _ c _ => c
  | .AcceptedFrontier _ c _ _ => c
  | .GetAccepted _ c _ _ => c
  | .Accepted _ c _ _ => c
  | .Get _ c _ _ => c
  | .Put _ c _ _ _ => c
  | .PushQuery _ c _ _ _ => c
  | .PullQuery _ c _ _ => c
  | .Chits _ c _ _ => c

/-- The `requestID uint32` routing argument every operation carries. -/
def Message.requestID : Message → RequestID
  | .GetAcceptedFrontier _ _ r => r
  | .AcceptedFrontier _ _ r _ => r
  | .GetAccepted _ _ r _ => r
  | .Accepted _ _ r _ => r
  | .Get _ _ r _ => r
  | .Put _ _ r _ _ => r
  | .PushQuery _ _ r _ _ => r
  | .PullQuery _ _ r _ => r
  | .Chits _ _ r _ => r

/-- The possible effect of invoking one operation on an
`ExternalSenderTest`. Each Go method performs at most one of: calling the
configured handler with the invocation's arguments, `s.T.Fatalf(...)`,
`s.B.Fatalf(...)`, or nothing. -/
inductive Outcome where
  | handlerCalled (call : Message)
  | fatalT (msg : String)
  | fatalB (msg : String)
  | silent
  deriving DecidableEq

/-- `true` when the outcome is a `Fatalf` on either testing handle. -/
def Outcome.isFatal : Outcome → Bool
  | .fatalT _ => true
  | .fatalB _ => true
  | _ => false

/-- The `ExternalSenderTest` struct. `T`/`B` record whether the
`*testing.T` / `*testing.B` pointer is non-nil; each `...F` field
records whether the corresponding handler function is non-nil (the
handler body is caller-supplied code, outside this repository; the
arguments passed to it are recorded in the `Outcome`). -/
structure ExternalSenderTest where
  T : Bool
  B : Bool
  CantGetAcceptedFrontier : Bool
  CantAcceptedFrontier : Bool
  CantGetAccepted : Bool
  CantAccepted : Bool
  CantGet : Bool
  CantPut : Bool
  CantPullQuery : Bool
  CantPushQuery : Bool
  CantChits : Bool
  GetAcceptedFrontierF : Bool
  AcceptedFrontierF : Bool
  GetAcceptedF : Bool
  AcceptedF : Bool
  GetF : Bool
  PutF : Bool
  PushQueryF : Bool
  PullQueryF : Bool
  ChitsF : Bool
  deriving DecidableEq

namespace ExternalSenderTest

/-- `Default` sets the default callable value to `cant`. -/
def Default (s : ExternalSenderTest) (cant : Bool) : ExternalSenderTest :=
  { s with
    CantGetAcceptedFrontier := cant
    CantAcceptedFrontier := cant
    CantGetAccepted := cant
    CantAccepted := cant
    CantGet := cant
    CantPut := cant
    CantPullQuery := cant
    CantPushQuery := cant
    CantChits := cant }

/-- `GetAcceptedFrontier` calls `GetAcceptedFrontierF` if it was
initialized, else fails the attached testing handle when
`CantGetAcceptedFrontier` is set. -/
def GetAcceptedFrontier (s : ExternalSenderTest) (validatorIDs : List ShortID) (chainID : ID)
    (requestID : RequestID) : Outcome :=
  if s.GetAcceptedFrontierF then
    .handlerCalled (.GetAcceptedFrontier validatorIDs chainID requestID)
  else if s.CantGetAcceptedFrontier && s.T then
    .fatalT "Unexpectedly called GetAcceptedFrontier"
  else if s.CantGetAcceptedFrontier && s.B then
    .fatalB "Unexpectedly called GetAcceptedFrontier"
  else .silent

/-- `AcceptedFrontier` calls `AcceptedFrontierF` if it was initialized. -/
def AcceptedFrontier (s : ExternalSenderTest) (validatorID : ShortID) (chainID : ID)
    (requestID : RequestID) (containerIDs : List ID) : Outcome :=
  if s.AcceptedFrontierF then
    .handlerCalled (.AcceptedFrontier validatorID chainID requestID containerIDs)
  else if s.CantAcceptedFrontier && s.T then
    .fatalT "Unexpectedly called AcceptedFrontier"
  else if s.CantAcceptedFrontier && s.B then
    .fatalB "Unexpectedly called AcceptedFrontier"
  else .silent

/-- `GetAccepted` calls `GetAcceptedF` if it was initialized. -/
def GetAccepted (s : ExternalSenderTest) (validatorIDs : List ShortID) (chainID : ID)
    (requestID : RequestID) (containerIDs : List ID) : Outcome :=
  if s.GetAcceptedF then
    .handlerCalled (.GetAccepted validatorIDs chainID requestID containerIDs)
  else if s.CantGetAccepted && s.T then
    .fatalT "Unexpectedly called GetAccepted"
  else if s.CantGetAccepted && s.B then
    .fatalB "Unexpectedly called GetAccepted"
  else .silent

/-- `Accepted` calls `AcceptedF` if it was initialized. -/
def Accepted (s : ExternalSenderTest) (validatorID : ShortID) (chainID : ID)
    (requestID : RequestID) (containerIDs : List ID) : Outcome :=
  if s.AcceptedF then
    .handlerCalled (.Accepted validatorID chainID requestID containerIDs)
  else if s.CantAccepted && s.T then
    .fatalT "Unexpectedly called Accepted"
  else if s.CantAccepted && s.B then
    .fatalB "Unexpectedly called Accepted"
  else .silent

/-- `Get` calls `GetF` if it was initialized. -/
def Get (s : ExternalSenderTest) (vdr : ShortID) (chainID : ID) (requestID : RequestID)
    (vtxID : ID) : Outcome :=
  if s.GetF then
    .handlerCalled (.Get vdr chainID requestID vtxID)
  else if s.CantGet && s.T then
    .fatalT "Unexpectedly called Get"
  else if s.CantGet && s.B then
    .fatalB "Unexpectedly called Get"
  else .silent

/-- `Put` calls `PutF` if it was initialized. -/
def Put (s : ExternalSenderTest) (vdr : ShortID) (chainID : ID) (requestID : RequestID)
    (vtxID : ID) (vtx : Bytes) : Outcome :=
  if s.PutF then
    .handlerCalled (.Put vdr chainID requestID vtxID vtx)
  else if s.CantPut && s.T then
    .fatalT "Unexpectedly called Put"
  else if s.CantPut && s.B then
    .fatalB "Unexpectedly called Put"
  else .silent

/-- `PushQuery` calls `PushQueryF` if it was initialized. -/
def PushQuery (s : ExternalSenderTest) (vdrs : List ShortID) (chainID : ID)
    (requestID : RequestID) (vtxID : ID) (vtx : Bytes) : Outcome :=
  if s.PushQueryF then
    .handlerCalled (.PushQuery vdrs chainID requestID vtxID vtx)
  else if s.CantPushQuery && s.T then
    .fatalT "Unexpectedly called PushQuery"
  else if s.CantPushQuery && s.B then
    .fatalB "Unexpectedly called PushQuery"
  else .silent

/-- `PullQuery` calls `PullQueryF` if it was initialized. -/
def PullQuery (s : ExternalSenderTest) (vdrs : List ShortID) (chainID : ID)
    (requestID : RequestID) (vtxID : ID) : Outcome :=
  if s.PullQueryF then
    .handlerCalled (.PullQuery vdrs chainID requestID vtxID)
  else if s.CantPullQuery && s.T then
    .fatalT "Unexpectedly called PullQuery"
  else if s.CantPullQuery && s.B then
    .fatalB "Unexpectedly called PullQuery"
  else .silent

/-- `Chits` calls `ChitsF` if it was initialized. -/
def Chits (s : ExternalSenderTest) (vdr : ShortID) (chainID : ID) (requestID : RequestID)
    (votes : List ID) : Outcome :=
  if s.ChitsF then
    .handlerCalled (.Chits vdr chainID requestID votes)
  else if s.CantChits && s.T then
    .fatalT "Unexpectedly called Chits"
  else if s.CantChits && s.B then
    .fatalB "Unexpectedly called Chits"
  else .silent

/-- Whether the handler field for the given operation is non-nil. -/
def handlerPresent (s : ExternalSenderTest) : Op → Bool
  | .GetAcceptedFrontier => s.GetAcceptedFrontierF
  | .AcceptedFrontier => s.AcceptedFrontierF
  | .GetAccepted => s.GetAcceptedF
  | .Accepted => s.AcceptedF
  | .Get => s.GetF
  | .Put => s.PutF
  | .PushQuery => s.PushQueryF
  | .PullQuery => s.PullQueryF
  | .Chits => s.ChitsF

/-- The `Cant...` assertion flag guarding the given operation. -/
def cantFlag (s : ExternalSenderTest) : Op → Bool
  | .GetAcceptedFrontier => s.CantGetAcceptedFrontier
  | .AcceptedFrontier => s.CantAcceptedFrontier
  | .GetAccepted => s.CantGetAccepted
  | .Accepted => s.CantAccepted
  | .Get => s.CantGet
  | .Put => s.CantPut
  | .PushQuery => s.CantPushQuery
  | .PullQuery => s.CantPullQuery
  | .Chits => s.CantChits

/-- Dispatch of an invocation to the Go method of its kind. -/
def invoke (s : ExternalSenderTest) : Message → Outcome
  | .GetAcceptedFrontier v c r => s.GetAcceptedFrontier v c r
  | .AcceptedFrontier v c r ids => s.AcceptedFrontier v c r ids
  | .GetAccepted v c r ids => s.GetAccepted v c r ids
  | .Accepted v c r ids => s.Accepted v c r ids
  | .Get v c r x => s.Get v c r x
  | .Put v c r x b => s.Put v c r x b
  | .PushQuery v c r x b => s.PushQuery v c r x b
  | .PullQuery v c r x => s.PullQuery v c r x
  | .Chits v c r vs => s.Chits v c r vs

end ExternalSenderTest

/-! ## Genesis module (`genesis/genesis.go`)

Go strings are modelled as `List Char` so that the byte-level operations
of `NetworkID` (lowercasing, slicing at byte 8, digit parsing) are
explicit. All strings involved are ASCII, where Go's
`strings.ToLower`, `s[8:]` and `strconv` parsing coincide with the
character-wise model below. -/

/-- A Go string, as its list of characters. -/
abbrev Str : Type := List Char

/-- Conversion of a Lean string literal to the `Str` model. -/
def str (s : String) : Str := s.data

/-- `strconv` digit test. -/
def isDigitCh (c : Char) : Bool := '0' ≤ c && c ≤ '9'

/-- Numeric value of a decimal digit character. -/
def digitVal (c : Char) : Nat := c.toNat - 48

/-- Decimal digit character of a value `d < 10`. -/
def digitCh (d : Nat) : Char := Char.ofNat (48 + d)

/-- `strings.ToLower` on one ASCII character. -/
def toLowerCh (c : Char) : Char :=
  if 'A' ≤ c && c ≤ 'Z' then Char.ofNat (c.toNat + 32) else c

/-- `strings.ToLower` (ASCII model). -/
def toLowerStr (s : Str) : Str := s.map toLowerCh

/-- Most-significant-first decimal digits of `n` (fuel-driven so that it
reduces definitionally; `natDigits` supplies enough fuel). -/
def natDigitsAux : Nat → Nat → List Nat
  | 0, _ => []
  | fuel + 1, n => if n < 10 then [n] else natDigitsAux fuel (n / 10) ++ [n % 10]

/-- Decimal digits of `n`, most significant first. -/
def natDigits (n : Nat) : List Nat := natDigitsAux (n + 1) n

/-- `fmt.Sprintf("%d", n)`: decimal rendering of a natural number. -/
def decimalRepr (n : Nat) : Str := (natDigits n).map digitCh

/-- Value of a most-significant-first digit list. -/
def digitsVal (l : List Nat) : Nat := l.foldl (fun acc d => 10 * acc + d) 0

/-- `strconv.ParseUint(s, 10, 0)`: a non-empty all-digit string parses to
its value; overflow past `uint64` is an error (`none`). Go also rejects
sign characters for unsigned parsing, covered by the all-digit test. -/
def parseUint10 (s : Str) : Option Nat :=
  if s = [] then none
  else if s.all isDigitCh then
    let v := s.foldl (fun acc c => 10 * acc + digitVal c) 0
    if v < 2 ^ 64 then some v else none
  else none

/-- Magnitude-and-sign part of `strconv.Atoi`. -/
def parseIntMag (digs : Str) (sign : Int) : Option Int :=
  if digs = [] then none
  else if digs.all isDigitCh then
    let v : Nat := digs.foldl (fun acc c => 10 * acc + digitVal c) 0
    let i : Int := sign * v
    if -(2 ^ 63) ≤ i ∧ i ≤ 2 ^ 63 - 1 then some i else none
  else none

/-- `strconv.Atoi(s)` = `ParseInt(s, 10, 0)`: optional sign, then digits,
within `int64` range. -/
def parseInt10 (s : Str) : Option Int :=
  match s with
  | [] => none
  | c :: rest =>
    if c = '+' then parseIntMag rest 1
    else if c = '-' then parseIntMag rest (-1)
    else parseIntMag (c :: rest) 1

/-- Association-list lookup (model of a Go map read). -/
def alLookup {α β : Type} [DecidableEq α] : List (α × β) → α → Option β
  | [], _ => none
  | (k, v) :: rest, a => if k = a then some v else alLookup rest a

/-- Association-list write `m[k] = v` (model of a Go map assignment:
replaces the binding when the key exists, appends it otherwise). -/
def upsert {α β : Type} [DecidableEq α] : List (α × β) → α → β → List (α × β)
  | [], k, v => [(k, v)]
  | (k', v') :: rest, k, v =>
    if k' = k then (k, v) :: rest else (k', v') :: upsert rest k v

/-- Hardcoded network IDs (`genesis.go`). -/
def MainnetID : Nat := 1

/-- `TestnetID uint32 = 2`. -/
def TestnetID : Nat := 2

/-- `BorealisID uint32 = 2`. -/
def BorealisID : Nat := 2

/-- `LocalID uint32 = 12345`. -/
def LocalID : Nat := 12345

/-- `"mainnet"`. -/
def mainnetName : Str := ['m', 'a', 'i', 'n', 'n', 'e', 't']

/-- `"testnet"`. -/
def testnetName : Str := ['t', 'e', 's', 't', 'n', 'e', 't']

/-- `"borealis"`. -/
def borealisName : Str := ['b', 'o', 'r', 'e', 'a', 'l', 'i', 's']

/-- `"local"`. -/
def localName : Str := ['l', 'o', 'c', 'a', 'l']

/-- `"network-"`, the 8-byte stem of generic network names. -/
def networkDash : Str := ['n', 'e', 't', 'w', 'o', 'r', 'k', '-']

/-- `NetworkIDToNetworkName`: special names for mainnet, testnet (named
"borealis") and local. -/
def NetworkIDToNetworkName : List (Nat × Str) :=
  [(MainnetID, mainnetName), (TestnetID, borealisName), (LocalID, localName)]

/-- `NetworkNameToNetworkID`. -/
def NetworkNameToNetworkID : List (Str × Nat) :=
  [(mainnetName, MainnetID), (testnetName, TestnetID),
   (borealisName, BorealisID), (localName, LocalID)]

/-- `math.MaxUint32`. -/
def MaxUint32 : Nat := 2 ^ 32 - 1

/-- `NetworkName` returns a human readable name for the network with ID
`networkID`. -/
def NetworkName (networkID : Nat) : Str :=
  match alLookup NetworkIDToNetworkName networkID with
  | some name => name
  | none => networkDash ++ decimalRepr networkID

/-- `regexp.MustCompile("network-[0-9]+")` at one position: the string
starts with `"network-"` followed by at least one digit. -/
def hasNetworkNumAt (s : Str) : Bool :=
  networkDash.isPrefixOf s &&
  (match s.drop 8 with
   | c :: _ => isDigitCh c
   | [] => false)

/-- `validNetworkName.MatchString`: the (unanchored) pattern
`network-[0-9]+` matches somewhere in the string. -/
def matchesValidNetworkName : Str → Bool
  | [] => hasNetworkNumAt []
  | c :: cs => hasNetworkNumAt (c :: cs) || matchesValidNetworkName cs

/-- Errors returned by `NetworkID` (carrying the lowercased name, as the
Go `fmt.Errorf` calls do): `notInRange` is
"NetworkID %s not in [0, 2^32)", `parseFailed` is
"Failed to parse %s as a network name". -/
inductive NetErr where
  | notInRange (name : Str)
  | parseFailed (name : Str)
  deriving DecidableEq

/-- `NetworkID` returns the ID of the network with name `networkName`. -/
def NetworkID (networkName : Str) : Except NetErr Nat :=
  let n := toLowerStr networkName
  match alLookup NetworkNameToNetworkID n with
  | some id => .ok id
  | none =>
    match parseUint10 n with
    | some id => if MaxUint32 < id then .error (.notInRange n) else .ok id
    | none =>
      if matchesValidNetworkName n then
        match parseInt10 (n.drop 8) with
        | some id =>
          if (MaxUint32 : Int) < id then .error (.notInRange n)
          else .ok ((id % (2 ^ 32 : Int)).toNat)
        | none => .error (.parseFailed n)
      else .error (.parseFailed n)

/-! ### Genesis state, aliases, VM genesis

The platform VM's types (`platformvm.Genesis`, `platformvm.CreateChainTx`)
and its codec live outside the shown fragment; the parts `genesis.go`
touches are modelled below, and the codec is kept abstract as a
`Codec` parameter (spec section 1 places genesis byte-layout out of
scope). -/

/-- Modelled from the spec: the hardcoded, pairwise-distinct virtual
machine identifiers (`platformvm.ID`, `avm.ID`, `evm.ID`, `spdagvm.ID`,
`spchainvm.ID`, `timestampvm.ID`) and the all-zero `ids.Empty`; their
concrete 32-byte values are defined outside the shown fragment, so they
are modelled as distinct opaque constants. -/
def emptyID : ID := 0

/-- `platformvm.ID` (see `emptyID`). -/
def platformvmID : ID := 1

/-- `avm.ID` (see `emptyID`). -/
def avmID : ID := 2

/-- `evm.ID` (see `emptyID`). -/
def evmID : ID := 3

/-- `spdagvm.ID` (see `emptyID`). -/
def spdagvmID : ID := 4

/-- `spchainvm.ID` (see `emptyID`). -/
def spchainvmID : ID := 5

/-- `timestampvm.ID` (see `emptyID`). -/
def timestampvmID : ID := 6

/-- Modelled from the spec: `ids.ID.String()`, the human-readable
rendering of an identifier, defined outside the shown fragment (CB58);
only its injectivity matters to the alias tables, so it is modelled as
the decimal rendering of the opaque constant. -/
def idStr (i : ID) : Str := decimalRepr i

/-- A `"vm/" + id.String()` general-alias key. -/
def vmSlash (i : ID) : Str := ['v', 'm', '/'] ++ idStr i

/-- A `"bc/" + id.String()` general-alias key. -/
def bcSlash (i : ID) : Str := ['b', 'c', '/'] ++ idStr i

/-- Modelled from the spec: the slice of `platformvm.CreateChainTx`
`genesis.go` reads — the chain's VM identifier (`chain.VMID`) and the
transaction's own identifier (`chain.ID()`, fixed by
`genesis.Initialize()` outside the fragment, modelled as a field). -/
structure CreateChainTx where
  VMID : ID
  txID : ID
  deriving DecidableEq

/-- Modelled from the spec: the slice of `platformvm.Genesis` that
`genesis.go` constructs and reads — accounts, validators (the
`EventHeap` as its list of entries), chain-creation transactions and a
timestamp. Account and validator records are opaque to this fragment. -/
structure PlatformGenesis where
  Accounts : List Nat
  Validators : List Nat
  Chains : List CreateChainTx
  Timestamp : Nat
  deriving DecidableEq

/-- The empty genesis state built by `Genesis`: no accounts, an empty
validator heap, no chains, timestamp 0. -/
def emptyPlatformGenesis : PlatformGenesis :=
  { Accounts := [], Validators := [], Chains := [], Timestamp := 0 }

/-- Modelled from the spec: `platformvm.Codec`, the platform VM's
serializer, an external collaborator (spec section 1/6). `marshal` may
fail (the Go `Marshal` returns an error, on which `Genesis` panics);
`Unmarshal`'s error is ignored by `Aliases` (the source has a TODO to
check it), and `genesis.Initialize()` is absorbed into `unmarshal`. -/
structure Codec where
  marshal : PlatformGenesis → Except String Bytes
  unmarshal : Bytes → PlatformGenesis

/-- `Genesis` returns the genesis data of the Platform Chain for network
`networkID`; a panic is modelled as `Except.error` with the panic
message. -/
def Genesis (c : Codec) (networkID : Nat) : Except String Bytes :=
  if networkID ≠ LocalID then .error "unknown network ID provided"
  else
    match c.marshal emptyPlatformGenesis with
    | .error e => .error e
    | .ok genesisBytes => .ok genesisBytes

/-- The three alias tables returned by `Aliases`. `chainAliases` and
`vmAliases` are keyed by the `[32]byte` of `id.Key()`, modelled by the
identifier itself. -/
structure AliasTables where
  generalAliases : List (Str × List Str)
  chainAliases : List (ID × List Str)
  vmAliases : List (ID × List Str)
  deriving DecidableEq

/-- The hardcoded alias tables `Aliases` starts from. -/
def baseAliasTables : AliasTables :=
  { generalAliases := [
      (vmSlash platformvmID, [str "vm/platform"]),
      (vmSlash avmID, [str "vm/avm"]),
      (vmSlash evmID, [str "vm/evm"]),
      (vmSlash spdagvmID, [str "vm/spdag"]),
      (vmSlash spchainvmID, [str "vm/spchain"]),
      (vmSlash timestampvmID, [str "vm/timestamp"]),
      (bcSlash emptyID, [str "P", str "platform", str "bc/P", str "bc/platform"])]
    chainAliases := [(emptyID, [str "P", str "platform"])]
    vmAliases := [
      (platformvmID, [str "platform"]),
      (avmID, [str "avm"]),
      (evmID, [str "evm"]),
      (spdagvmID, [str "spdag"]),
      (spchainvmID, [str "spchain"]),
      (timestampvmID, [str "timestamp"])] }

/-- One iteration of the `for _, chain := range genesis.Chains` switch in
`Aliases`. -/
def applyChain (t : AliasTables) (chain : CreateChainTx) : AliasTables :=
  if chain.VMID = avmID then
    { t with
      generalAliases := upsert t.generalAliases (bcSlash chain.txID)
        [str "X", str "avm", str "bc/X", str "bc/avm"]
      chainAliases := upsert t.chainAliases chain.txID [str "X", str "avm"] }
  else if chain.VMID = evmID then
    { t with
      generalAliases := upsert t.generalAliases (bcSlash chain.txID)
        [str "C", str "evm", str "bc/C", str "bc/evm"]
      chainAliases := upsert t.chainAliases chain.txID [str "C", str "evm"] }
  else if chain.VMID = spdagvmID then
    { t with
      generalAliases := upsert t.generalAliases (bcSlash chain.txID) [str "bc/spdag"]
      chainAliases := upsert t.chainAliases chain.txID [str "spdag"] }
  else if chain.VMID = spchainvmID then
    { t with
      generalAliases := upsert t.generalAliases (bcSlash chain.txID) [str "bc/spchain"]
      chainAliases := upsert t.chainAliases chain.txID [str "spchain"] }
  else if chain.VMID = timestampvmID then
    { t with
      generalAliases := upsert t.generalAliases (bcSlash chain.txID) [str "bc/timestamp"]
      chainAliases := upsert t.chainAliases chain.txID [str "timestamp"] }
  else t

/-- `Aliases` returns the default aliases based on the network ID: the
hardcoded tables, extended by one switch iteration per genesis chain. -/
def Aliases (c : Codec) (networkID : Nat) : Except String AliasTables :=
  match Genesis c networkID with
  | .error e => .error e
  | .ok genesisBytes =>
    let genesis := c.unmarshal genesisBytes
    .ok (genesis.Chains.foldl applyChain baseAliasTables)

/-- `VMGenesis` returns the first genesis chain whose VM identifier is
`vmID`, or `nil` (`none`). -/
def VMGenesis (c : Codec) (networkID : Nat) (vmID : ID) :
    Except String (Option CreateChainTx) :=
  match Genesis c networkID with
  | .error e => .error e
  | .ok genesisBytes =>
    let genesis := c.unmarshal genesisBytes
    .ok (genesis.Chains.find? (fun chain => chain.VMID == vmID))

/-! ## Vote Tally state machine (spec sections 4.5 and 8)

The vote-tally code is not part of the shown fragment; the per-container
lifecycle is modelled from the spec. -/

namespace VoteTally

/-- Modelled from the spec: the per-container lifecycle states
`Unknown → Processing → Accepted | Rejected` (spec section 3). -/
inductive Status where
  | Unknown
  | Processing
  | Accepted
  | Rejected
  deriving DecidableEq, Repr

/-- Modelled from the spec: per-container vote-tally state — lifecycle
status and the confidence counter (spec sections 3 and 4.5). -/
structure TallyState where
  status : Status
  confidence : Nat
  deriving DecidableEq, Repr

/-- The state of a never-observed container. -/
def initState : TallyState := { status := .Unknown, confidence := 0 }

/-- Modelled from the spec: the outcome of one polling round for the
container (spec section 4.5) — quorum not reached; quorum reached with
the preference unchanged from the previous round; or quorum reached with
a flipped preference. -/
inductive RoundResult where
  | inconclusive
  | confirmedSame
  | confirmedFlipped
  deriving DecidableEq, Repr

/-- Modelled from the spec: an event affecting the container — it is
first referenced (`observe`, spec section 4.5 first rule), a polling
round resolves, or it is found to conflict with an already-accepted
container (`conflict`). -/
inductive Event where
  | observe
  | round (r : RoundResult)
  | conflict
  deriving DecidableEq, Repr

/-- Modelled from the spec: the transition rules of spec section 4.5 for
one container, with acceptance threshold `β`. `Accepted` and `Rejected`
are terminal; an `Unknown` container enters `Processing` when first
referenced; a conclusive round increments confidence (resetting it to 1
on a preference flip), an inconclusive round resets it to zero; when
confidence reaches `β` the container transitions to `Accepted`; a
conflict with an accepted container rejects a processing container. -/
def step (β : Nat) : TallyState → Event → TallyState
  | ⟨.Accepted, c⟩, _ => ⟨.Accepted, c⟩
  | ⟨.Rejected, c⟩, _ => ⟨.Rejected, c⟩
  | ⟨.Unknown, _⟩, .observe => ⟨.Processing, 0⟩
  | ⟨.Unknown, c⟩, .round _ => ⟨.Unknown, c⟩
  | ⟨.Unknown, c⟩, .conflict => ⟨.Unknown, c⟩
  | ⟨.Processing, c⟩, .observe => ⟨.Processing, c⟩
  | ⟨.Processing, c⟩, .conflict => ⟨.Rejected, c⟩
  | ⟨.Processing, _⟩, .round .inconclusive => ⟨.Processing, 0⟩
  | ⟨.Processing, c⟩, .round .confirmedSame =>
    if β ≤ c + 1 then ⟨.Accepted, c + 1⟩ else ⟨.Processing, c + 1⟩
  | ⟨.Processing, _⟩, .round .confirmedFlipped =>
    if β ≤ 1 then ⟨.Accepted, 1⟩ else ⟨.Processing, 1⟩

/-- Running the state machine over a sequence of events. -/
def run (β : Nat) (s : TallyState) (es : List Event) : TallyState :=
  es.foldl (step β) s

end VoteTally

/-- A concrete `ExternalSenderTest` with no testing handles attached, all
`Cant` flags set, and no handlers configured; used as a concrete
evaluation point. -/
def sampleSender : ExternalSenderTest :=
  { T := false, B := false
    CantGetAcceptedFrontier := true, CantAcceptedFrontier := true
    CantGetAccepted := true, CantAccepted := true
    CantGet := true, CantPut := true
    CantPullQuery := true, CantPushQuery := true, CantChits := true
    GetAcceptedFrontierF := false, AcceptedFrontierF := false
    GetAcceptedF := false, AcceptedF := false
    GetF := false, PutF := false
    PushQueryF := false, PullQueryF := false, ChitsF := false }

/-- A concrete codec whose `marshal` always succeeds and whose
`unmarshal` returns the empty genesis state; used as a concrete
evaluation point. -/
def sampleCodec : Codec :=
  { marshal := fun _ => .ok [], unmarshal := fun _ => emptyPlatformGenesis }

/-! ## Theorems -/

/-- Claim C3: the sender interface exposes exactly nine message
operations, one per message kind (`GetAcceptedFrontier`,
`AcceptedFrontier`, `GetAccepted`, `Accepted`, `Get`, `Put`, `PushQuery`,
`PullQuery`, `Chits`), and every one of the nine kinds carries a chain
identifier and a 32-bit unsigned request identifier as routing metadata
(for each kind, a message of that kind exists with any given chain ID and
any given 32-bit request ID). -/
theorem C3_nine_kinds_routing :
    Fintype.card Op = 9 ∧
    ∀ (k : Op) (c : ID) (r : RequestID),
      ∃ m : Message, m.kind = k ∧ m.chainID = c ∧ m.requestID = r := by
  refine ⟨by decide, fun k c r => ?_⟩
  cases k
  case GetAcceptedFrontier => exact ⟨.GetAcceptedFrontier [] c r, rfl, rfl, rfl⟩
  case AcceptedFrontier => exact ⟨.AcceptedFrontier 0 c r [], rfl, rfl, rfl⟩
  case GetAccepted => exact ⟨.GetAccepted [] c r [], rfl, rfl, rfl⟩
  case Accepted => exact ⟨.Accepted 0 c r [], rfl, rfl, rfl⟩
  case Get => exact ⟨.Get 0 c r 0, rfl, rfl, rfl⟩
  case Put => exact ⟨.Put 0 c r 0 [], rfl, rfl, rfl⟩
  case PushQuery => exact ⟨.PushQuery [] c r 0 [], rfl, rfl, rfl⟩
  case PullQuery => exact ⟨.PullQuery [] c r 0, rfl, rfl, rfl⟩
  case Chits => exact ⟨.Chits 0 c r [], rfl, rfl, rfl⟩

/-- Claim C1, counterexample: `Get` is a "Get*" variant, yet its first
parameter is a single `ids.ShortID`, not an `ids.ShortSet` — the claim
that every Get*/Query variant takes a set of peer identifiers fails at
`Get`. -/
theorem C1_get_single_peer_cex :
    requestStyle Op.Get = true ∧ firstParam Op.Get ≠ PeerParam.shortSet := by
  decide

/-- Claim C1 (amended): every Get*/Query variant except `Get`
(`GetAcceptedFrontier`, `GetAccepted`, `PushQuery`, `PullQuery`) takes a
set of peer identifiers as its first argument, while `Get` and every
response-style variant (`AcceptedFrontier`, `Accepted`, `Put`, `Chits`)
take exactly one peer identifier as the first argument. -/
theorem C1_peer_target_arity (k : Op) :
    (requestStyle k = true → k ≠ Op.Get → firstParam k = PeerParam.shortSet) ∧
    (responseStyle k = true ∨ k = Op.Get → firstParam k = PeerParam.shortID) := by
  cases k <;> exact ⟨by decide, by decide⟩

/-- Witness for C1: the amended claim applied to the concrete operations
`PushQuery` (broadcast side) and `Chits` (single-peer side). -/
theorem C1_peer_target_arity_wit :
    firstParam Op.PushQuery = PeerParam.shortSet ∧
    firstParam Op.Chits = PeerParam.shortID :=
  ⟨(C1_peer_target_arity Op.PushQuery).1 (by decide) (by decide),
   (C1_peer_target_arity Op.Chits).2 (Or.inl (by decide))⟩

/-- Claim C7: each of the nine operations has its own assertion flag, and
`Default cant` sets exactly those nine flags to `cant`, leaving the
testing handles `T` and `B` and all nine handler fields unchanged. -/
theorem C7_default_sets_cant_flags (s : ExternalSenderTest) (cant : Bool) :
    (s.Default cant).CantGetAcceptedFrontier = cant ∧
    (s.Default cant).CantAcceptedFrontier = cant ∧
    (s.Default cant).CantGetAccepted = cant ∧
    (s.Default cant).CantAccepted = cant ∧
    (s.Default cant).CantGet = cant ∧
    (s.Default cant).CantPut = cant ∧
    (s.Default cant).CantPullQuery = cant ∧
    (s.Default cant).CantPushQuery = cant ∧
    (s.Default cant).CantChits = cant ∧
    (s.Default cant).T = s.T ∧
    (s.Default cant).B = s.B ∧
    (s.Default cant).GetAcceptedFrontierF = s.GetAcceptedFrontierF ∧
    (s.Default cant).AcceptedFrontierF = s.AcceptedFrontierF ∧
    (s.Default cant).GetAcceptedF = s.GetAcceptedF ∧
    (s.Default cant).AcceptedF = s.AcceptedF ∧
    (s.Default cant).GetF = s.GetF ∧
    (s.Default cant).PutF = s.PutF ∧
    (s.Default cant).PushQueryF = s.PushQueryF ∧
    (s.Default cant).PullQueryF = s.PullQueryF ∧
    (s.Default cant).ChitsF = s.ChitsF :=
  ⟨rfl, rfl, rfl, rfl, rfl, rfl, rfl, rfl, rfl, rfl,
   rfl, rfl, rfl, rfl, rfl, rfl, rfl, rfl, rfl, rfl⟩

/-- Claim C9: for every one of the nine operations, if the corresponding
handler function is non-nil, invoking the operation calls that handler
(and nothing else) with exactly the arguments given, raising no test
failure, regardless of the `Cant` flags and of whether `T` or `B` is
attached. -/
theorem C9_handler_precedence (s : ExternalSenderTest) (m : Message)
    (h : s.handlerPresent m.kind = true) :
    s.invoke m = Outcome.handlerCalled m := by
  cases m <;>
    simp_all [ExternalSenderTest.handlerPresent, Message.kind,
      ExternalSenderTest.invoke, ExternalSenderTest.GetAcceptedFrontier,
      ExternalSenderTest.AcceptedFrontier, ExternalSenderTest.GetAccepted,
      ExternalSenderTest.Accepted, ExternalSenderTest.Get,
      ExternalSenderTest.Put, ExternalSenderTest.PushQuery,
      ExternalSenderTest.PullQuery, ExternalSenderTest.Chits]

/-- Witness for C9: a sender with every `Cant` flag set, no testing
handles, and a `Chits` handler configured dispatches a `Chits` call to
the handler with the given arguments. -/
theorem C9_handler_precedence_wit :
    ExternalSenderTest.invoke { sampleSender with ChitsF := true }
      (Message.Chits 3 5 (rid 7) [11, 13]) =
    Outcome.handlerCalled (Message.Chits 3 5 (rid 7) [11, 13]) :=
  C9_handler_precedence { sampleSender with ChitsF := true }
    (Message.Chits 3 5 (rid 7) [11, 13]) (by decide)

/-- Claim C4: an assertion violation is fatal only when a testing handle
is attached — for every invocation of any of the nine operations with `T`
and `B` both nil, no test failure is ever raised. -/
theorem C4_no_failure_without_handles (s : ExternalSenderTest) (m : Message)
    (ht : s.T = false) (hb : s.B = false) :
    (s.invoke m).isFatal = false := by
  cases m <;>
    simp only [ExternalSenderTest.invoke, ExternalSenderTest.GetAcceptedFrontier,
      ExternalSenderTest.AcceptedFrontier, ExternalSenderTest.GetAccepted,
      ExternalSenderTest.Accepted, ExternalSenderTest.Get,
      ExternalSenderTest.Put, ExternalSenderTest.PushQuery,
      ExternalSenderTest.PullQuery, ExternalSenderTest.Chits,
      ht, hb, Bool.and_false, Bool.false_eq_true, if_false] <;>
    split <;> rfl

/-- Witness for C4: with no testing handles, every `Cant` flag set and no
handler, a `Get` call raises no failure. -/
theorem C4_no_failure_without_handles_wit :
    (sampleSender.invoke (Message.Get 1 2 (rid 3) 4)).isFatal = false :=
  C4_no_failure_without_handles sampleSender (Message.Get 1 2 (rid 3) 4) rfl rfl

/-- Claim C2, counterexample: invoking `Get` on a sender with no `Get`
handler and `CantGet` set, but with neither `T` nor `B` attached, is
silently ignored — no fatal test failure is reported, contradicting the
claim that such a violation is always reported. -/
theorem C2_silent_without_handles_cex :
    sampleSender.handlerPresent Op.Get = false ∧
    sampleSender.cantFlag Op.Get = true ∧
    sampleSender.invoke (Message.Get 1 2 (rid 3) 4) = Outcome.silent := by
  refine ⟨rfl, rfl, ?_⟩
  decide

/-- Claim C2 (amended): for every one of the nine operations, if the
operation's handler is nil, its `Cant` flag is set, and a testing handle
(`T` or `B`) is attached, then invoking the operation reports a fatal
test failure. -/
theorem C2_assertion_reported (s : ExternalSenderTest) (m : Message)
    (hf : s.handlerPresent m.kind = false) (hc : s.cantFlag m.kind = true)
    (ht : s.T = true ∨ s.B = true) :
    (s.invoke m).isFatal = true := by
  rcases ht with h | h <;> cases hT : s.T <;> cases m <;>
    simp_all [ExternalSenderTest.handlerPresent, ExternalSenderTest.cantFlag,
      Message.kind, ExternalSenderTest.invoke, Outcome.isFatal,
      ExternalSenderTest.GetAcceptedFrontier, ExternalSenderTest.AcceptedFrontier,
      ExternalSenderTest.GetAccepted, ExternalSenderTest.Accepted,
      ExternalSenderTest.Get, ExternalSenderTest.Put,
      ExternalSenderTest.PushQuery, ExternalSenderTest.PullQuery,
      ExternalSenderTest.Chits]

/-- Witness for C2: with a `*testing.T` attached, no handler and the
`CantGet` flag set, a `Get` call is a fatal failure. -/
theorem C2_assertion_reported_wit :
    (ExternalSenderTest.invoke { sampleSender with T := true }
      (Message.Get 1 2 (rid 3) 4)).isFatal = true :=
  C2_assertion_reported { sampleSender with T := true }
    (Message.Get 1 2 (rid 3) 4) rfl rfl (Or.inl rfl)

/-! ### Decimal-digit helper lemmas for the network-name round trip -/

theorem ne_of_headCh {a b : Char} (l₁ l₂ : List Char) (h : a ≠ b) :
    a :: l₁ ≠ b :: l₂ := by
  intro he
  injection he with h1 _
  exact h h1

theorem digitsVal_append (l : List Nat) (d : Nat) :
    digitsVal (l ++ [d]) = 10 * digitsVal l + d := by
  simp [digitsVal, List.foldl_append]

theorem natDigitsAux_val (fuel : Nat) :
    ∀ n, n < fuel → digitsVal (natDigitsAux fuel n) = n := by
  induction fuel with
  | zero => intro n h; omega
  | succ fuel ih =>
    intro n h
    simp only [natDigitsAux]
    by_cases h10 : n < 10
    · rw [if_pos h10]; simp [digitsVal]
    · rw [if_neg h10, digitsVal_append, ih (n / 10) (by omega)]
      omega

theorem natDigitsAux_lt (fuel : Nat) :
    ∀ n, n < fuel → ∀ d ∈ natDigitsAux fuel n, d < 10 := by
  induction fuel with
  | zero => intro n h; omega
  | succ fuel ih =>
    intro n h d hd
    simp only [natDigitsAux] at hd
    by_cases h10 : n < 10
    · rw [if_pos h10] at hd; simp at hd; omega
    · rw [if_neg h10] at hd
      rcases List.mem_append.1 hd with h1 | h1
      · exact ih (n / 10) (by omega) d h1
      · simp at h1; omega

theorem natDigitsAux_ne_nil (fuel n : Nat) (h : n < fuel) :
    natDigitsAux fuel n ≠ [] := by
  cases fuel with
  | zero => omega
  | succ fuel =>
    simp only [natDigitsAux]
    split
    · simp
    · simp

theorem digitsVal_natDigits (n : Nat) : digitsVal (natDigits n) = n :=
  natDigitsAux_val (n + 1) n (by omega)

theorem natDigits_lt (n : Nat) : ∀ d ∈ natDigits n, d < 10 :=
  natDigitsAux_lt (n + 1) n (by omega)

theorem natDigits_ne_nil (n : Nat) : natDigits n ≠ [] :=
  natDigitsAux_ne_nil (n + 1) n (by omega)

theorem isDigitCh_digitCh : ∀ d, d < 10 → isDigitCh (digitCh d) = true := by
  decide

theorem digitVal_digitCh : ∀ d, d < 10 → digitVal (digitCh d) = d := by
  decide

theorem toLowerCh_digitCh : ∀ d, d < 10 → toLowerCh (digitCh d) = digitCh d := by
  decide

theorem digitCh_ne_plus : ∀ d, d < 10 → digitCh d ≠ '+' := by
  decide

theorem digitCh_ne_minus : ∀ d, d < 10 → digitCh d ≠ '-' := by
  decide

theorem all_isDigitCh_decimalRepr (n : Nat) :
    (decimalRepr n).all isDigitCh = true := by
  rw [List.all_eq_true]
  intro c hc
  rw [decimalRepr] at hc
  rcases List.mem_map.1 hc with ⟨d, hd, rfl⟩
  exact isDigitCh_digitCh d (natDigits_lt n d hd)

theorem foldl_digitVal_digitCh (l : List Nat) (h : ∀ d ∈ l, d < 10) :
    ∀ acc : Nat,
      (l.map digitCh).foldl (fun acc c => 10 * acc + digitVal c) acc =
      l.foldl (fun acc d => 10 * acc + d) acc := by
  induction l with
  | nil => intro acc; rfl
  | cons d rest ih =>
    intro acc
    simp only [List.map_cons, List.foldl_cons]
    rw [digitVal_digitCh d (h d (by simp))]
    exact ih (fun x hx => h x (by simp [hx])) _

theorem parse_decimalRepr (n : Nat) :
    (decimalRepr n).foldl (fun acc c => 10 * acc + digitVal c) 0 = n := by
  rw [decimalRepr, foldl_digitVal_digitCh (natDigits n) (natDigits_lt n) 0]
  exact digitsVal_natDigits n

theorem map_toLowerCh_decimalRepr (n : Nat) :
    (decimalRepr n).map toLowerCh = decimalRepr n := by
  simp only [decimalRepr, List.map_map]
  refine List.map_congr_left ?_
  intro d hd
  exact toLowerCh_digitCh d (natDigits_lt n d hd)

theorem decimalRepr_ne_nil (n : Nat) : decimalRepr n ≠ [] := by
  simp only [decimalRepr, ne_eq, List.map_eq_nil_iff]
  exact natDigits_ne_nil n

theorem decimalRepr_cons (n : Nat) :
    ∃ (d : Nat) (rest : List Nat),
      decimalRepr n = digitCh d :: List.map digitCh rest ∧ d < 10 ∧
      ∀ x ∈ rest, x < 10 := by
  rcases hnd : natDigits n with _ | ⟨d, rest⟩
  · exact absurd hnd (natDigits_ne_nil n)
  · refine ⟨d, rest, ?_, ?_, ?_⟩
    · rw [decimalRepr, hnd, List.map_cons]
    · exact natDigits_lt n d (by rw [hnd]; simp)
    · intro x hx; exact natDigits_lt n x (by rw [hnd]; simp [hx])

/-! ### String-level lemmas about the generic network name -/

theorem toLowerStr_generic (n : Nat) :
    toLowerStr (networkDash ++ decimalRepr n) = networkDash ++ decimalRepr n := by
  rw [toLowerStr, List.map_append, map_toLowerCh_decimalRepr]
  rw [show networkDash.map toLowerCh = networkDash from by decide]

theorem lookup_name_generic (n : Nat) :
    alLookup NetworkNameToNetworkID (networkDash ++ decimalRepr n) = none := by
  show alLookup
    [(mainnetName, MainnetID), (testnetName, TestnetID),
     (borealisName, BorealisID), (localName, LocalID)] _ = none
  rw [alLookup,
    if_neg (show mainnetName ≠ networkDash ++ decimalRepr n from
      ne_of_headCh _ _ (by decide))]
  rw [alLookup,
    if_neg (show testnetName ≠ networkDash ++ decimalRepr n from
      ne_of_headCh _ _ (by decide))]
  rw [alLookup,
    if_neg (show borealisName ≠ networkDash ++ decimalRepr n from
      ne_of_headCh _ _ (by decide))]
  rw [alLookup,
    if_neg (show localName ≠ networkDash ++ decimalRepr n from
      ne_of_headCh _ _ (by decide))]
  rw [alLookup]

theorem parseUint10_generic (n : Nat) :
    parseUint10 (networkDash ++ decimalRepr n) = none := by
  rw [parseUint10]
  rw [if_neg (show ¬(networkDash ++ decimalRepr n = []) from by
    simp [networkDash])]
  rw [if_neg (show ¬((networkDash ++ decimalRepr n).all isDigitCh = true) from by
    rw [List.all_append]
    rw [show networkDash.all isDigitCh = false from by decide]
    simp)]

theorem drop8_generic (n : Nat) :
    (networkDash ++ decimalRepr n).drop 8 = decimalRepr n :=
  List.drop_left networkDash (decimalRepr n)

theorem hasNetworkNumAt_generic (n : Nat) :
    hasNetworkNumAt (networkDash ++ decimalRepr n) = true := by
  rw [hasNetworkNumAt, Bool.and_eq_true]
  constructor
  · rw [List.isPrefixOf_iff_prefix]
    exact List.prefix_append _ _
  · rw [drop8_generic]
    rcases decimalRepr_cons n with ⟨d, rest, heq, hd, -⟩
    rw [heq]
    exact isDigitCh_digitCh d hd

theorem matches_of_hasAt (s : Str) (h : hasNetworkNumAt s = true) :
    matchesValidNetworkName s = true := by
  cases s with
  | nil => rw [matchesValidNetworkName]; exact h
  | cons c cs => rw [matchesValidNetworkName, h, Bool.true_or]

theorem parseInt10_decimalRepr (n : Nat) (h : n < 2 ^ 32) :
    parseInt10 (decimalRepr n) = some (n : Int) := by
  rcases decimalRepr_cons n with ⟨d, rest, heq, hd, -⟩
  rw [heq, parseInt10]
  rw [if_neg (digitCh_ne_plus d hd), if_neg (digitCh_ne_minus d hd)]
  rw [← heq, parseIntMag]
  rw [if_neg (show ¬(decimalRepr n = []) from decimalRepr_ne_nil n)]
  rw [if_pos (all_isDigitCh_decimalRepr n)]
  simp only [parse_decimalRepr n, one_mul]
  rw [if_pos (by constructor <;> omega)]

/-- Claim C6: round trip of network naming — for every 32-bit network ID,
`NetworkID (NetworkName id)` returns `id` without error; the reverse
direction fails for names: `"testnet"` parses to ID 2, whose name is
`"borealis"`. -/
theorem C6_network_name_roundtrip (id : Nat) (h : id < 2 ^ 32) :
    NetworkID (NetworkName id) = Except.ok id ∧
    NetworkID testnetName = Except.ok 2 ∧
    NetworkName 2 = borealisName := by
  refine ⟨?_, by rfl, by rfl⟩
  by_cases h1 : id = 1
  · subst h1; rfl
  by_cases h2 : id = 2
  · subst h2; rfl
  by_cases h3 : id = 12345
  · subst h3; rfl
  have hlook : alLookup NetworkIDToNetworkName id = none := by
    rw [NetworkIDToNetworkName, alLookup,
      if_neg (show MainnetID ≠ id from fun he => h1 he.symm), alLookup,
      if_neg (show TestnetID ≠ id from fun he => h2 he.symm), alLookup,
      if_neg (show LocalID ≠ id from fun he => h3 he.symm), alLookup]
  have hname : NetworkName id = networkDash ++ decimalRepr id := by
    simp only [NetworkName, hlook]
  rw [hname]
  simp only [NetworkID, toLowerStr_generic, lookup_name_generic,
    parseUint10_generic, drop8_generic,
    matches_of_hasAt _ (hasNetworkNumAt_generic id), if_true,
    parseInt10_decimalRepr id h]
  rw [if_neg (show ¬((MaxUint32 : Int) < (id : Nat)) from by
    simp only [MaxUint32]
    omega)]
  have hmod : ((id : Int) % (2 ^ 32 : Int)).toNat = id := by
    rw [Int.emod_eq_of_lt (by omega) (by exact_mod_cast h)]
    simp
  rw [hmod]

/-- Witness for C6: the round trip evaluated at network ID 77. -/
theorem C6_network_name_roundtrip_wit :
    NetworkID (NetworkName 77) = Except.ok 77 :=
  (C6_network_name_roundtrip 77 (by norm_num)).1

/-- Claim C5: `Genesis` panics (modelled as `Except.error` with the panic
message) for every network ID other than `LocalID` = 12345, and for
`LocalID` returns the marshalled empty platform-chain genesis state (no
accounts, no validators, no chains, timestamp 0); `Aliases` and
`VMGenesis`, which call `Genesis` first, propagate the same panic for
every non-local network ID. -/
theorem C5_genesis_local_only (c : Codec) (networkID : Nat) (vmID : ID)
    (h : networkID ≠ LocalID) :
    Genesis c networkID = Except.error "unknown network ID provided" ∧
    Aliases c networkID = Except.error "unknown network ID provided" ∧
    VMGenesis c networkID vmID = Except.error "unknown network ID provided" ∧
    Genesis c LocalID = c.marshal emptyPlatformGenesis ∧
    emptyPlatformGenesis =
      { Accounts := [], Validators := [], Chains := [], Timestamp := 0 } := by
  have hg : Genesis c networkID = Except.error "unknown network ID provided" := by
    rw [Genesis, if_pos h]
  refine ⟨hg, ?_, ?_, ?_, rfl⟩
  · rw [Aliases, hg]
  · rw [VMGenesis, hg]
  · rw [Genesis, if_neg (by simp)]
    cases hm : c.marshal emptyPlatformGenesis with
    | error e => rfl
    | ok b => rfl

/-- Witness for C5: evaluated at the concrete codec and network ID 0. -/
theorem C5_genesis_local_only_wit :
    Genesis sampleCodec 0 = Except.error "unknown network ID provided" ∧
    Aliases sampleCodec 0 = Except.error "unknown network ID provided" ∧
    VMGenesis sampleCodec 0 avmID = Except.error "unknown network ID provided" ∧
    Genesis sampleCodec LocalID = sampleCodec.marshal emptyPlatformGenesis ∧
    emptyPlatformGenesis =
      { Accounts := [], Validators := [], Chains := [], Timestamp := 0 } :=
  C5_genesis_local_only sampleCodec 0 avmID (by decide)

/-! ### Alias-table monotonicity helpers -/

theorem alLookup_upsert_isSome {α β : Type} [DecidableEq α]
    (m : List (α × β)) (k' : α) (v : β) (k : α)
    (h : (alLookup m k).isSome = true) :
    (alLookup (upsert m k' v) k).isSome = true := by
  induction m with
  | nil => simp [alLookup] at h
  | cons kv rest ih =>
    obtain ⟨k₀, v₀⟩ := kv
    rw [upsert]
    by_cases he : k₀ = k'
    · rw [if_pos he]
      rw [alLookup] at h ⊢
      by_cases hk : k' = k
      · rw [if_pos hk]; rfl
      · rw [if_neg hk]
        rw [if_neg (fun h0 => hk (he ▸ h0))] at h
        exact h
    · rw [if_neg he]
      rw [alLookup] at h ⊢
      by_cases hk : k₀ = k
      · rw [if_pos hk] at h ⊢; exact h
      · rw [if_neg hk] at h ⊢; exact ih h

theorem applyChain_vmAliases (t : AliasTables) (chain : CreateChainTx) :
    (applyChain t chain).vmAliases = t.vmAliases := by
  rw [applyChain]
  split_ifs <;> rfl

theorem applyChain_general_isSome (t : AliasTables) (chain : CreateChainTx)
    (k : Str) (h : (alLookup t.generalAliases k).isSome = true) :
    (alLookup (applyChain t chain).generalAliases k).isSome = true := by
  rw [applyChain]
  split_ifs <;> first
    | exact alLookup_upsert_isSome _ _ _ _ h
    | exact h

theorem applyChain_chain_isSome (t : AliasTables) (chain : CreateChainTx)
    (k : ID) (h : (alLookup t.chainAliases k).isSome = true) :
    (alLookup (applyChain t chain).chainAliases k).isSome = true := by
  rw [applyChain]
  split_ifs <;> first
    | exact alLookup_upsert_isSome _ _ _ _ h
    | exact h

theorem applyChains_vmAliases (chains : List CreateChainTx) :
    ∀ t : AliasTables, (chains.foldl applyChain t).vmAliases = t.vmAliases := by
  induction chains with
  | nil => intro t; rfl
  | cons chain rest ih =>
    intro t
    rw [List.foldl_cons, ih (applyChain t chain), applyChain_vmAliases]

theorem applyChains_general_isSome (chains : List CreateChainTx) :
    ∀ (t : AliasTables) (k : Str),
      (alLookup t.generalAliases k).isSome = true →
      (alLookup (chains.foldl applyChain t).generalAliases k).isSome = true := by
  induction chains with
  | nil => intro t k h; exact h
  | cons chain rest ih =>
    intro t k h
    rw [List.foldl_cons]
    exact ih (applyChain t chain) k (applyChain_general_isSome t chain k h)

theorem applyChains_chain_isSome (chains : List CreateChainTx) :
    ∀ (t : AliasTables) (k : ID),
      (alLookup t.chainAliases k).isSome = true →
      (alLookup (chains.foldl applyChain t).chainAliases k).isSome = true := by
  induction chains with
  | nil => intro t k h; exact h
  | cons chain rest ih =>
    intro t k h
    rw [List.foldl_cons]
    exact ih (applyChain t chain) k (applyChain_chain_isSome t chain k h)

/-- Claim C8: `Aliases` is deterministic — any two calls with the same
network ID (on which it is defined) return equal tables; assuming only
that unmarshalling the marshalled empty genesis yields no chains, the
returned tables are exactly the hardcoded base tables, which contain the
six virtual-machine alias entries and the platform-chain entries
(aliases "P" and "platform" for the empty chain ID); moreover the
per-chain extension loop never removes an existing entry: it leaves
`vmAliases` untouched and preserves every present `generalAliases` and
`chainAliases` key, for any starting tables and any chain list. -/
theorem C8_aliases_tables (c : Codec)
    (hrt : ∀ b, c.marshal emptyPlatformGenesis = Except.ok b →
      (c.unmarshal b).Chains = [])
    (t : AliasTables) (ht : Aliases c LocalID = Except.ok t) :
    t = baseAliasTables ∧
    (∀ t₂, Aliases c LocalID = Except.ok t₂ → t₂ = t) ∧
    alLookup t.vmAliases platformvmID = some [str "platform"] ∧
    alLookup t.vmAliases avmID = some [str "avm"] ∧
    alLookup t.vmAliases evmID = some [str "evm"] ∧
    alLookup t.vmAliases spdagvmID = some [str "spdag"] ∧
    alLookup t.vmAliases spchainvmID = some [str "spchain"] ∧
    alLookup t.vmAliases timestampvmID = some [str "timestamp"] ∧
    alLookup t.chainAliases emptyID = some [str "P", str "platform"] ∧
    alLookup t.generalAliases (bcSlash emptyID) =
      some [str "P", str "platform", str "bc/P", str "bc/platform"] ∧
    (∀ (u : AliasTables) (chains : List CreateChainTx),
      (chains.foldl applyChain u).vmAliases = u.vmAliases ∧
      (∀ k, (alLookup u.generalAliases k).isSome = true →
        (alLookup (chains.foldl applyChain u).generalAliases k).isSome = true) ∧
      (∀ k, (alLookup u.chainAliases k).isSome = true →
        (alLookup (chains.foldl applyChain u).chainAliases k).isSome = true)) := by
  have huniq : ∀ t₂, Aliases c LocalID = Except.ok t₂ → t₂ = baseAliasTables := by
    intro t₂ h₂
    rw [Aliases, Genesis, if_neg (by simp)] at h₂
    cases hm : c.marshal emptyPlatformGenesis with
    | error e => rw [hm] at h₂; simp at h₂
    | ok b =>
      rw [hm] at h₂
      simp only [hrt b hm, List.foldl_nil, Except.ok.injEq] at h₂
      exact h₂.symm
  have hbase : t = baseAliasTables := huniq t ht
  subst hbase
  refine ⟨rfl, fun t₂ h₂ => huniq t₂ h₂, rfl, rfl, rfl, rfl, rfl, rfl, rfl, rfl, ?_⟩
  intro u chains
  exact ⟨applyChains_vmAliases chains u,
    fun k => applyChains_general_isSome chains u k,
    fun k => applyChains_chain_isSome chains u k⟩

/-- Witness for C8: at the concrete codec, `Aliases` on the local network
evaluates to the base tables, and the avm and platform-chain entries are
present. -/
theorem C8_aliases_tables_wit :
    Aliases sampleCodec LocalID = Except.ok baseAliasTables ∧
    alLookup baseAliasTables.vmAliases avmID = some [str "avm"] ∧
    alLookup baseAliasTables.chainAliases emptyID =
      some [str "P", str "platform"] :=
  ⟨rfl,
   (C8_aliases_tables sampleCodec (fun _ _ => rfl) baseAliasTables rfl).2.2.2.1,
   (C8_aliases_tables sampleCodec (fun _ _ => rfl) baseAliasTables
      rfl).2.2.2.2.2.2.2.2.1⟩

/-! ### Vote-tally helper lemmas -/

theorem step_accepted (β : Nat) (s : VoteTally.TallyState) (e : VoteTally.Event)
    (h : s.status = VoteTally.Status.Accepted) : VoteTally.step β s e = s := by
  rcases s with ⟨st, conf⟩
  cases st
  case Accepted => rfl
  all_goals exact VoteTally.Status.noConfusion h

theorem run_accepted (β : Nat) :
    ∀ (es : List VoteTally.Event) (s : VoteTally.TallyState),
      s.status = VoteTally.Status.Accepted → VoteTally.run β s es = s := by
  intro es
  induction es with
  | nil => intro s _; rfl
  | cons e rest ih =>
    intro s h
    rw [VoteTally.run, List.foldl_cons, step_accepted β s e h]
    exact ih s h

theorem tally_inv_step (β : Nat) (hβ : 1 ≤ β) (st : VoteTally.Status) (conf : Nat)
    (hs : st = VoteTally.Status.Processing → conf < β) (e : VoteTally.Event)
    (h : (VoteTally.step β ⟨st, conf⟩ e).status = VoteTally.Status.Processing) :
    (VoteTally.step β ⟨st, conf⟩ e).confidence < β := by
  cases st <;> rcases e with _ | (_ | _ | _) | _ <;>
    simp only [VoteTally.step] at h ⊢ <;>
    first
      | omega
      | exact VoteTally.Status.noConfusion h
      | exact hs rfl
      | (split_ifs at h ⊢ <;>
          first
            | exact VoteTally.Status.noConfusion h
            | simp_all)

theorem run_inv (β : Nat) (hβ : 1 ≤ β) :
    ∀ (es : List VoteTally.Event) (s : VoteTally.TallyState),
      (s.status = VoteTally.Status.Processing → s.confidence < β) →
      (VoteTally.run β s es).status = VoteTally.Status.Processing →
      (VoteTally.run β s es).confidence < β := by
  intro es
  induction es with
  | nil => intro s hs; exact hs
  | cons e rest ih =>
    intro s hs
    rw [VoteTally.run, List.foldl_cons]
    exact ih (VoteTally.step β s e)
      (tally_inv_step β hβ s.status s.confidence hs e)

/-- Claim C10: once a container's confidence counter reaches the
threshold β, the container transitions to `Accepted` (a conclusive round
that brings confidence to β accepts it, and no reachable state is
`Processing` with confidence at or above β); and `Accepted` is terminal —
from an `Accepted` state, no sequence of further events (rounds,
conflicts, observations) changes the state, so it never transitions to
`Rejected` or back to `Processing`. -/
theorem C10_accepted_terminal (β : Nat) (hβ : 1 ≤ β) :
    (∀ s : VoteTally.TallyState, s.status = VoteTally.Status.Processing →
      β ≤ s.confidence + 1 →
      (VoteTally.step β s
        (VoteTally.Event.round VoteTally.RoundResult.confirmedSame)).status =
        VoteTally.Status.Accepted) ∧
    (∀ (s : VoteTally.TallyState) (es : List VoteTally.Event),
      s.status = VoteTally.Status.Accepted → VoteTally.run β s es = s) ∧
    (∀ es : List VoteTally.Event,
      (VoteTally.run β VoteTally.initState es).status =
        VoteTally.Status.Processing →
      (VoteTally.run β VoteTally.initState es).confidence < β) := by
  refine ⟨?_, fun s es h => run_accepted β es s h, ?_⟩
  · intro s hs hc
    rcases s with ⟨st, conf⟩
    cases st
    case Processing =>
      simp only [VoteTally.step]
      rw [if_pos hc]
    all_goals exact VoteTally.Status.noConfusion hs
  · intro es
    exact run_inv β hβ es VoteTally.initState (fun h => VoteTally.Status.noConfusion h)

/-- Witness for C10 with β = 2: a processing container at confidence 1
is accepted by a conclusive round, and an accepted container is unchanged
by a subsequent conflict and an inconclusive round. -/
theorem C10_accepted_terminal_wit :
    (VoteTally.step 2 ⟨VoteTally.Status.Processing, 1⟩
      (VoteTally.Event.round VoteTally.RoundResult.confirmedSame)).status =
      VoteTally.Status.Accepted ∧
    VoteTally.run 2 ⟨VoteTally.Status.Accepted, 2⟩
      [VoteTally.Event.conflict,
       VoteTally.Event.round VoteTally.RoundResult.inconclusive] =
      ⟨VoteTally.Status.Accepted, 2⟩ :=
  ⟨(C10_accepted_terminal 2 (by norm_num)).1 ⟨VoteTally.Status.Processing, 1⟩
      rfl (by norm_num),
   (C10_accepted_terminal 2 (by norm_num)).2.1 ⟨VoteTally.Status.Accepted, 2⟩
      _ rfl⟩

end Gecko
